import Mathlib

/-
Shallow embedding of the tinydb table/query/cache engine
(src/tinydb/__init__.py, classes TinyDB and Table), with theorems checking
the specification claims against it. Python dicts are embedded as ordered
association lists (first matching key wins, assignment overwrites in place
or appends), machine integers as Int, and fallible operations as Except.
The module tinydb.queries imported by the source is not under src/; the
Condition model is therefore modelled from the spec where marked.
-/

/-- A primitive JSON-like value stored in a document field. The claims under
verification only exercise flat documents, so nested objects are elided. -/
inductive Val
  | int (n : Int)
  | str (s : String)
  | boolean (b : Bool)
deriving DecidableEq

/-- A document: an ordered string-keyed mapping (a Python dict), embedded as
an association list preserving insertion order. -/
def Doc := List (String × Val)
deriving DecidableEq

/-- Python dict read d[k] as a total function: the value at the first
matching key, if present. -/
def getField (d : Doc) (k : String) : Option Val :=
  match d with
  | [] => none
  | (k0, v) :: rest => if k0 = k then some v else getField rest k

/-- Python dict assignment d[k] = v: overwrite in place (position kept) when
the key is present, else append at the end. -/
def setField (d : Doc) (k : String) (v : Val) : Doc :=
  match d with
  | [] => [(k, v)]
  | (k0, v0) :: rest =>
    if k0 = k then (k, v) :: rest else (k0, v0) :: setField rest k v

/-- Modelled from the spec: the source imports query/where from
tinydb.queries, which is not under src/. Per the spec a Condition is an
immutable description — field selection plus an operator (equality, ordering
comparison, existence test, boolean combinators) — and two Conditions are
equal iff their descriptions are structurally equal. Nested-path traversal,
membership and regex operators are elided: no claim exercises them. -/
inductive Cond
  | ceq (field : String) (v : Val)
  | clt (field : String) (v : Val)
  | cgt (field : String) (v : Val)
  | hasField (field : String)
  | cand (a b : Cond)
  | cor (a b : Cond)
  | cnot (a : Cond)
deriving DecidableEq

/-- Ordering test on primitive values; mismatched types compare false. -/
def valLt : Val → Val → Bool
  | Val.int a, Val.int b => a < b
  | Val.str a, Val.str b => a < b
  | _, _ => false

/-- Modelled from the spec: the pure evaluation function of a Condition over
one document; an absent field makes the test false rather than failing,
except for the existence check. -/
def evalCond : Cond → Doc → Bool
  | Cond.ceq f v, d => match getField d f with
    | some w => w = v
    | none => false
  | Cond.clt f v, d => match getField d f with
    | some w => valLt w v
    | none => false
  | Cond.cgt f v, d => match getField d f with
    | some w => valLt v w
    | none => false
  | Cond.hasField f, d => (getField d f).isSome
  | Cond.cand a b, d => evalCond a d && evalCond b d
  | Cond.cor a b, d => evalCond a d || evalCond b d
  | Cond.cnot a, d => !(evalCond a d)

/-- The value held by the storage backend: normally the whole-snapshot
mapping from table name to document list; arr represents a malformed
non-mapping value (such as a bare list), which the except clauses of the
source and the empty-table-name write path can encounter or produce. -/
inductive SnapVal
  | map (m : List (String × List Doc))
  | arr (l : List Doc)
deriving DecidableEq

/-- The storage backend state: read() either returns the held value or
raises ValueError (decodeFail, such as empty or corrupt serialized data). -/
inductive Storage
  | ok (v : SnapVal)
  | decodeFail
deriving DecidableEq

/-- Python errors the embedded operations can raise. -/
inductive PyErr
  | keyError
  | typeError
deriving DecidableEq

deriving instance DecidableEq for Except

/-- Snapshot dict read m[t] as a total lookup (first matching entry). -/
def lookupEntry (m : List (String × List Doc)) (t : String) :
    Option (List Doc) :=
  match m with
  | [] => none
  | (k, v) :: rest => if k = t then some v else lookupEntry rest t

/-- Snapshot dict assignment m[t] = v: replace in place, else append. -/
def setEntry (m : List (String × List Doc)) (t : String) (v : List Doc) :
    List (String × List Doc) :=
  match m with
  | [] => [(t, v)]
  | (k, w) :: rest =>
    if k = t then (t, v) :: rest else (k, w) :: setEntry rest t v

/-- Embeds TinyDB._read() with no table argument: self._storage.read(),
returning the empty mapping when the read raises ValueError. -/
def dbReadAll (s : Storage) : SnapVal :=
  match s with
  | Storage.ok v => v
  | Storage.decodeFail => SnapVal.map []

/-- Embeds TinyDB._read(table) on the branch where table is truthy (a
nonempty name): self._read()[table], returning the empty list on KeyError
(entry absent) or TypeError (the snapshot is not a mapping). -/
def dbReadTable (s : Storage) (t : String) : List Doc :=
  match dbReadAll s with
  | SnapVal.map m => (lookupEntry m t).getD []
  | SnapVal.arr _ => []

/-- The value TinyDB._read returns: the whole snapshot when no truthy table
name was given, a document list otherwise. -/
inductive ReadResult
  | whole (v : SnapVal)
  | docs (l : List Doc)
deriving DecidableEq

/-- Embeds TinyDB._read(table). The source guard `if not table` selects the
whole-snapshot branch both for None and for the empty string. -/
def dbRead (s : Storage) (table : Option String) : ReadResult :=
  match table with
  | none => ReadResult.whole (dbReadAll s)
  | some t =>
    if t = "" then ReadResult.whole (dbReadAll s)
    else ReadResult.docs (dbReadTable s t)

/-- Embeds TinyDB._write(values, table) for a document-list values and a
given table name, as every Table mutation calls it. The guard `if not table`
is true for the empty name, so storage.write(values) then stores the bare
list as the whole snapshot; otherwise the whole snapshot is read
(self._read()), the entry is replaced (current_data[table] = values — a
TypeError when the snapshot is not a mapping), and written back whole. -/
def dbWrite (s : Storage) (values : List Doc) (table : String) :
    Except PyErr Storage :=
  if table = "" then Except.ok (Storage.ok (SnapVal.arr values))
  else
    match dbReadAll s with
    | SnapVal.map m =>
      Except.ok (Storage.ok (SnapVal.map (setEntry m table values)))
    | SnapVal.arr _ => Except.error PyErr.typeError

/-- A key of Table._queries_cache. The membership test of the source uses
the condition (`if cond in self._queries_cache`), while both store and
retrieve use the module-level function where imported from tinydb.queries
(`self._queries_cache[where]`); a function object is a key distinct from
every Condition value, hence the two key kinds are separate constructors. -/
inductive CacheKey
  | cond (c : Cond)
  | whereFn
deriving DecidableEq

/-- Query-cache dict read: first entry with the given key. -/
def lookupCache (cache : List (CacheKey × List Doc)) (k : CacheKey) :
    Option (List Doc) :=
  match cache with
  | [] => none
  | (k0, v) :: rest => if k0 = k then some v else lookupCache rest k

/-- Query-cache dict assignment cache[k] = v: replace in place, else
append. -/
def insertCache (cache : List (CacheKey × List Doc)) (k : CacheKey)
    (v : List Doc) : List (CacheKey × List Doc) :=
  match cache with
  | [] => [(k, v)]
  | (k0, w) :: rest =>
    if k0 = k then (k, v) :: rest else (k0, w) :: insertCache rest k v

/-- The in-memory state of one Table instance: its name, the last-assigned
identifier counter _last_id, and the query cache _queries_cache. The
document collection itself lives in the Storage. -/
structure Table where
  name : String
  lastId : Int
  queriesCache : List (CacheKey × List Doc)
deriving DecidableEq

/-- Embeds Table.__init__(name, db): starts with an empty query cache and
seeds _last_id by reading the _id entry of self._read().pop() — of the LAST
stored document — falling back to 0 only on IndexError (empty list). A last
document without an integer identifier raises an uncaught KeyError; pop()
mutates only the freshly read local list, not the storage. -/
def Table.init (name : String) (s : Storage) : Except PyErr Table :=
  match (dbReadTable s name).getLast? with
  | none => Except.ok ⟨name, 0, []⟩
  | some d =>
    match getField d "_id" with
    | some (Val.int n) => Except.ok ⟨name, n, []⟩
    | _ => Except.error PyErr.keyError

/-- Embeds Table._read / Table.all: self._db._read(self.name), read fresh on
every call. Table operations are embedded on the truthy-name branch of
TinyDB._read; the tables of the claims have nonempty names (an empty name
would make TinyDB return the whole snapshot instead of a list, and the
theorems below carry nonempty-name hypotheses wherever that matters). -/
def Table.all (t : Table) (s : Storage) : List Doc :=
  dbReadTable s t.name

/-- Embeds Table._write(values): clears the query cache, then forwards to
TinyDB._write(values, self.name). -/
def Table.tblWrite (t : Table) (s : Storage) (values : List Doc) :
    Table × Except PyErr Storage :=
  ({ t with queriesCache := [] }, dbWrite s values t.name)

/-- Embeds Table.insert(element): increments _last_id, stamps the element
with the new identifier (assigning next_id to the _id entry of element,
overwriting any
identifier already present; the source contains no rejection check), appends
it to the freshly read document list and writes the list back. -/
def Table.insert (t : Table) (s : Storage) (element : Doc) :
    Table × Except PyErr Storage :=
  let nextId := t.lastId + 1
  let element2 := setField element "_id" (Val.int nextId)
  let data := dbReadTable s t.name ++ [element2]
  Table.tblWrite { t with lastId := nextId } s data

/-- Embeds Table.search(cond): `if cond in self._queries_cache` tests
membership of the condition itself, but a hit returns
`self._queries_cache[where]` — the entry under the module-level where
function (a KeyError if that key is absent). A miss scans all(), filters
with the condition, and stores the result under
`self._queries_cache[where]` — the constant where key, not the condition. -/
def Table.search (t : Table) (s : Storage) (cond : Cond) :
    Except PyErr (List Doc) × Table :=
  if (lookupCache t.queriesCache (CacheKey.cond cond)).isSome then
    match lookupCache t.queriesCache CacheKey.whereFn with
    | some elems => (Except.ok elems, t)
    | none => (Except.error PyErr.keyError, t)
  else
    let elems := (Table.all t s).filter (fun e => evalCond cond e)
    (Except.ok elems,
      { t with
        queriesCache := insertCache t.queriesCache CacheKey.whereFn elems })

/-- Embeds Table.remove(cond): computes to_remove = self.search(cond), then
writes back `[e for e in self.all() if e not in to_remove]` — keeping
exactly the documents not structurally equal to any matched one. An
exception raised by search propagates before any write. -/
def Table.remove (t : Table) (s : Storage) (cond : Cond) :
    Table × Except PyErr Storage :=
  match Table.search t s cond with
  | (Except.error e, t2) => (t2, Except.error e)
  | (Except.ok toRemove, t2) =>
    Table.tblWrite t2 s
      ((Table.all t2 s).filter (fun e => !(toRemove.contains e)))

/-- Embeds Table.purge(): writes an empty document list. -/
def Table.purge (t : Table) (s : Storage) : Table × Except PyErr Storage :=
  Table.tblWrite t s []

/-- Embeds Table.get(cond): the first document in list order satisfying the
condition, or None. -/
def Table.getFirst (t : Table) (s : Storage) (cond : Cond) : Option Doc :=
  (Table.all t s).find? (fun e => evalCond cond e)

/-- A Table object as created by `Table(name, self)` inside TinyDB.table:
instId is the object identity (allocation number) and owner the identity of
the TinyDB instance captured as the _db attribute of the table. -/
structure TableInst where
  instId : Nat
  owner : Nat
  name : String
deriving DecidableEq

/-- The CLASS attribute `_table_cache = {}` of TinyDB: a single dict shared
by every TinyDB instance, since `self._table_cache[name] = table` mutates
the class-level dict in place rather than binding an instance attribute. -/
structure ClassTableCache where
  entries : List (String × TableInst)
  nextInstId : Nat
deriving DecidableEq

/-- Lookup in the shared _table_cache dict. -/
def lookupInst (entries : List (String × TableInst)) (name : String) :
    Option TableInst :=
  match entries with
  | [] => none
  | (k, v) :: rest => if k = name then some v else lookupInst rest name

/-- Embeds TinyDB.table(name) as run by the instance with identity db:
return the cached Table if name is a key of the (class-shared) _table_cache,
otherwise construct `Table(name, self)` and cache it there. -/
def tableMethod (cache : ClassTableCache) (db : Nat) (name : String) :
    TableInst × ClassTableCache :=
  match lookupInst cache.entries name with
  | some t => (t, cache)
  | none =>
    let t : TableInst := ⟨cache.nextInstId, db, name⟩
    (t, ⟨cache.entries ++ [(name, t)], cache.nextInstId + 1⟩)

/-- Embeds Table.insert with the document of the caller modelled as a
reference r into a heap of documents, capturing that
the assignment of next_id to the _id entry of element mutates the dict of
the caller in place and that
data.append(element) appends that same, now stamped, object — not a copy. -/
def Table.insertRef (t : Table) (s : Storage) (heap : List Doc) (r : Nat) :
    Table × Except PyErr Storage × List Doc :=
  let nextId := t.lastId + 1
  let heap2 := heap.set r (setField (heap.getD r []) "_id" (Val.int nextId))
  let data := dbReadTable s t.name ++ [heap2.getD r []]
  ({ t with lastId := nextId, queriesCache := [] },
   dbWrite s data t.name, heap2)

/-- One Table operation of an insert/remove interleaving. -/
inductive Op
  | ins (d : Doc)
  | rem (c : Cond)

/-- Runs a sequence of inserts and removes on one Table instance, collecting
the identifier assigned by each insert; a raised exception aborts the rest
of the sequence (an aborting insert has already consumed its identifier). -/
def runOps (t : Table) (s : Storage) : List Op → Table × Storage × List Int
  | [] => (t, s, [])
  | Op.ins d :: rest =>
    match Table.insert t s d with
    | (t1, Except.ok s1) =>
      let r := runOps t1 s1 rest
      (r.1, r.2.1, (t.lastId + 1) :: r.2.2)
    | (t1, Except.error _) => (t1, s, [t.lastId + 1])
  | Op.rem c :: rest =>
    match Table.remove t s c with
    | (t1, Except.ok s1) => runOps t1 s1 rest
    | (t1, Except.error _) => (t1, s, [])

/-- The number of inserts in an operation sequence. -/
def countIns : List Op → Nat
  | [] => 0
  | Op.ins _ :: rest => countIns rest + 1
  | Op.rem _ :: rest => countIns rest

/-- The list of integers a, a+1, ..., a+n-1. -/
def rangeInts (a : Int) (n : Nat) : List Int :=
  (List.range n).map (fun (i : Nat) => a + (i : Int))

/-- The documents of a table matched by a condition: the scan performed by
Table.search on a cache miss. -/
def matchedDocs (s : Storage) (name : String) (c : Cond) : List Doc :=
  (dbReadTable s name).filter (fun e => evalCond c e)

/-- The documents Table.remove keeps: those of the current list that are not
structurally equal to any matched document. -/
def keptDocs (s : Storage) (name : String) (c : Cond) : List Doc :=
  (dbReadTable s name).filter (fun e => !((matchedDocs s name c).contains e))

theorem getField_setField (d : Doc) (k : String) (v : Val) :
    getField (setField d k v) k = some v := by
  induction d with
  | nil => simp [getField, setField]
  | cons kv rest ih =>
    obtain ⟨k0, v0⟩ := kv
    by_cases h : k0 = k <;> simp [getField, setField, h, ih]

theorem lookupEntry_setEntry_self (m : List (String × List Doc)) (t : String)
    (v : List Doc) : lookupEntry (setEntry m t v) t = some v := by
  induction m with
  | nil => simp [setEntry, lookupEntry]
  | cons kv rest ih =>
    obtain ⟨k, w⟩ := kv
    by_cases h : k = t <;> simp [setEntry, lookupEntry, h, ih]

theorem lookupEntry_setEntry_other (m : List (String × List Doc))
    (t u : String) (v : List Doc) (h : u ≠ t) :
    lookupEntry (setEntry m t v) u = lookupEntry m u := by
  induction m with
  | nil => simp [setEntry, lookupEntry, h.symm]
  | cons kv rest ih =>
    obtain ⟨k, w⟩ := kv
    by_cases hk : k = t
    · subst hk
      simp [setEntry, lookupEntry, h.symm]
    · by_cases hu : k = u <;> simp [setEntry, lookupEntry, hk, hu, h, ih]

theorem dbWrite_map (s : Storage) (m : List (String × List Doc))
    (v : List Doc) (t : String) (ht : t ≠ "")
    (hm : dbReadAll s = SnapVal.map m) :
    dbWrite s v t = Except.ok (Storage.ok (SnapVal.map (setEntry m t v))) := by
  simp [dbWrite, ht, hm]

theorem search_scan (t : Table) (s : Storage) (c : Cond)
    (hc : lookupCache t.queriesCache (CacheKey.cond c) = none) :
    Table.search t s c =
      (Except.ok (matchedDocs s t.name c),
       ⟨t.name, t.lastId,
        insertCache t.queriesCache CacheKey.whereFn (matchedDocs s t.name c)⟩) := by
  simp [Table.search, hc, Table.all, matchedDocs]

theorem insert_eq (t : Table) (s : Storage) (elem : Doc)
    (m : List (String × List Doc)) (ht : t.name ≠ "")
    (hm : dbReadAll s = SnapVal.map m) :
    Table.insert t s elem =
      (⟨t.name, t.lastId + 1, []⟩,
       Except.ok (Storage.ok (SnapVal.map (setEntry m t.name
         (dbReadTable s t.name ++
          [setField elem "_id" (Val.int (t.lastId + 1))]))))) := by
  simp [Table.insert, Table.tblWrite, dbWrite_map s m _ t.name ht hm]

theorem remove_eq (t : Table) (s : Storage) (c : Cond)
    (m : List (String × List Doc))
    (hc : lookupCache t.queriesCache (CacheKey.cond c) = none)
    (ht : t.name ≠ "") (hm : dbReadAll s = SnapVal.map m) :
    Table.remove t s c =
      (⟨t.name, t.lastId, []⟩,
       Except.ok (Storage.ok (SnapVal.map
         (setEntry m t.name (keptDocs s t.name c))))) := by
  rw [Table.remove, search_scan t s c hc]
  simp [Table.tblWrite, Table.all, keptDocs,
        dbWrite_map s m _ t.name ht hm]

theorem rangeInts_zero (a : Int) : rangeInts a 0 = [] := rfl

theorem rangeInts_succ (a : Int) (n : Nat) :
    rangeInts a (n + 1) = a :: rangeInts (a + 1) n := by
  unfold rangeInts
  rw [List.range_succ_eq_map, List.map_cons, List.map_map]
  congr 1
  · simp
  · apply List.map_congr_left
    intro i _
    simp only [Function.comp_apply]
    push_cast
    ring

theorem rangeInts_pairwise (a : Int) (n : Nat) :
    List.Pairwise (fun x y => x < y) (rangeInts a n) := by
  unfold rangeInts
  rw [List.pairwise_map]
  refine List.Pairwise.imp ?_ (List.pairwise_lt_range n)
  intro i j hij
  omega

theorem runOps_ids (ops : List Op) :
    ∀ (t : Table) (s : Storage) (m : List (String × List Doc)),
      t.name ≠ "" → t.queriesCache = [] → dbReadAll s = SnapVal.map m →
      (runOps t s ops).2.2 = rangeInts (t.lastId + 1) (countIns ops) := by
  induction ops with
  | nil => intro t s m _ _ _; simp [runOps, countIns, rangeInts_zero]
  | cons op rest ih =>
    intro t s m hn hc hm
    cases op with
    | ins d =>
      rw [runOps, insert_eq t s d m hn hm]
      have hrec := ih ⟨t.name, t.lastId + 1, []⟩
        (Storage.ok (SnapVal.map (setEntry m t.name
          (dbReadTable s t.name ++
           [setField d "_id" (Val.int (t.lastId + 1))]))))
        (setEntry m t.name
          (dbReadTable s t.name ++
           [setField d "_id" (Val.int (t.lastId + 1))])) hn rfl rfl
      simp only [hrec, countIns, rangeInts_succ]
    | rem c =>
      rw [runOps, remove_eq t s c m (by rw [hc]; rfl) hn hm]
      have hrec := ih ⟨t.name, t.lastId, []⟩
        (Storage.ok (SnapVal.map (setEntry m t.name (keptDocs s t.name c))))
        (setEntry m t.name (keptDocs s t.name c)) hn rfl rfl
      simp only [hrec, countIns]

/-- C1: evaluated at a concrete table, backend and condition, Table.search
stores the computed result under the constant where-function key and nothing
under the condition itself, contradicting the claim that results are cached
under the key of the condition (its structural value). -/
theorem c1_search_caches_under_where_sentinel :
    Table.search ⟨"t", 1, []⟩
        (Storage.ok (SnapVal.map
          [("t", [[("a", Val.int 1), ("_id", Val.int 1)]])]))
        (Cond.ceq "a" (Val.int 1))
      = (Except.ok [[("a", Val.int 1), ("_id", Val.int 1)]],
         ⟨"t", 1,
          [(CacheKey.whereFn, [[("a", Val.int 1), ("_id", Val.int 1)]])]⟩)
    ∧ lookupCache
        [(CacheKey.whereFn, [[("a", Val.int 1), ("_id", Val.int 1)]])]
        (CacheKey.cond (Cond.ceq "a" (Val.int 1))) = none := by
  constructor
  · rfl
  · rfl

/-- C2: the identifier counter is seeded from the LAST stored document, not
the maximum; on a backend storing identifiers out of order the counter starts
at 1 although 2 exists, and the next insert assigns the colliding
identifier 2. -/
theorem c2_init_seeds_from_last_not_max :
    Table.init "t" (Storage.ok (SnapVal.map
        [("t", [[("_id", Val.int 2)], [("_id", Val.int 1)]])]))
      = Except.ok ⟨"t", 1, []⟩
    ∧ Table.insert ⟨"t", 1, []⟩ (Storage.ok (SnapVal.map
        [("t", [[("_id", Val.int 2)], [("_id", Val.int 1)]])]))
        [("x", Val.int 0)]
      = (⟨"t", 2, []⟩, Except.ok (Storage.ok (SnapVal.map
          [("t", [[("_id", Val.int 2)], [("_id", Val.int 1)],
                  [("x", Val.int 0), ("_id", Val.int 2)]])])))
    ∧ getField [("_id", Val.int 2)] "_id"
        = getField [("x", Val.int 0), ("_id", Val.int 2)] "_id" := by
  refine ⟨rfl, rfl, rfl⟩

/-- C3 counterexample: inserting a document that already carries the
reserved identifier field is not rejected; the call succeeds and the backend
snapshot changes (the supplied identifier 5 is silently overwritten by 1). -/
theorem c3_counterexample_insert_id_not_rejected :
    Table.insert ⟨"t", 0, []⟩ (Storage.ok (SnapVal.map []))
        [("_id", Val.int 5), ("x", Val.int 1)]
      = (⟨"t", 1, []⟩, Except.ok (Storage.ok (SnapVal.map
          [("t", [[("_id", Val.int 1), ("x", Val.int 1)]])])))
    ∧ Storage.ok (SnapVal.map [("t", [[("_id", Val.int 1), ("x", Val.int 1)]])])
        ≠ Storage.ok (SnapVal.map []) := by
  refine ⟨rfl, by decide⟩

/-- C3 amended: insert does not reject a document already carrying the
reserved identifier field; it increments the counter, overwrites that field
in place with the newly assigned identifier, and appends the stamped
document to the freshly read list in the backend. -/
theorem c3_insert_overwrites_reserved_field (t : Table) (s : Storage)
    (elem : Doc) (m : List (String × List Doc)) (ht : t.name ≠ "")
    (hm : dbReadAll s = SnapVal.map m) :
    Table.insert t s elem
      = (⟨t.name, t.lastId + 1, []⟩,
         Except.ok (Storage.ok (SnapVal.map (setEntry m t.name
           (dbReadTable s t.name ++
            [setField elem "_id" (Val.int (t.lastId + 1))])))))
    ∧ getField (setField elem "_id" (Val.int (t.lastId + 1))) "_id"
        = some (Val.int (t.lastId + 1)) :=
  ⟨insert_eq t s elem m ht hm, getField_setField elem "_id" _⟩

/-- C3 amended, instantiated: the theorem applied at a concrete table,
backend and document that already carries the reserved field. -/
theorem c3_insert_overwrites_reserved_field_witness :
    (("t" : String) ≠ "")
    ∧ dbReadAll (Storage.ok (SnapVal.map [])) = SnapVal.map []
    ∧ (Table.insert ⟨"t", 0, []⟩ (Storage.ok (SnapVal.map []))
        [("_id", Val.int 5), ("x", Val.int 1)]
      = (⟨"t", 0 + 1, []⟩,
         Except.ok (Storage.ok (SnapVal.map (setEntry [] "t"
           (dbReadTable (Storage.ok (SnapVal.map [])) "t" ++
            [setField [("_id", Val.int 5), ("x", Val.int 1)] "_id"
              (Val.int (0 + 1))])))))
    ∧ getField (setField [("_id", Val.int 5), ("x", Val.int 1)] "_id"
          (Val.int (0 + 1))) "_id" = some (Val.int (0 + 1))) :=
  ⟨by decide, rfl,
   c3_insert_overwrites_reserved_field ⟨"t", 0, []⟩
     (Storage.ok (SnapVal.map [])) [("_id", Val.int 5), ("x", Val.int 1)]
     [] (by decide) rfl⟩

/-- C4: the table registry is the class attribute _table_cache, mutated in
place and therefore shared by every TinyDB instance; a second database
asking for the same table name receives the very Table instance created for
the first database (and hence its query cache), contradicting the claimed
per-database isolation. -/
theorem c4_table_cache_shared_across_databases :
    tableMethod ⟨[], 0⟩ 1 "x"
      = (⟨0, 1, "x"⟩, ⟨[("x", ⟨0, 1, "x"⟩)], 1⟩)
    ∧ tableMethod ⟨[("x", ⟨0, 1, "x"⟩)], 1⟩ 2 "x"
      = (⟨0, 1, "x"⟩, ⟨[("x", ⟨0, 1, "x"⟩)], 1⟩)
    ∧ (1 : Nat) ≠ 2 := by
  refine ⟨rfl, rfl, by decide⟩

/-- C5: every mutating Table operation (insert, remove, purge) leaves the
query cache empty, and a search against an empty cache re-scans the current
document list and filters it with the condition. -/
theorem c5_mutations_clear_query_cache (t t2 : Table) (s s2 : Storage)
    (d : Doc) (c c2 : Cond)
    (hc : lookupCache t.queriesCache (CacheKey.cond c) = none)
    (h2 : t2.queriesCache = []) :
    (Table.insert t s d).1.queriesCache = []
    ∧ (Table.purge t s).1.queriesCache = []
    ∧ (Table.remove t s c).1.queriesCache = []
    ∧ (Table.search t2 s2 c2).1
        = Except.ok ((Table.all t2 s2).filter (fun e => evalCond c2 e)) := by
  refine ⟨rfl, rfl, ?_, ?_⟩
  · rw [Table.remove, search_scan t s c hc]
    rfl
  · simp [Table.search, h2, lookupCache]

/-- C5, instantiated: the theorem applied at a concrete table whose cache
holds an entry under the where key, a concrete document and conditions. -/
theorem c5_mutations_clear_query_cache_witness :
    lookupCache [(CacheKey.whereFn, [])]
        (CacheKey.cond (Cond.ceq "a" (Val.int 1))) = none
    ∧ ([] : List (CacheKey × List Doc)) = []
    ∧ ((Table.insert ⟨"t", 0, [(CacheKey.whereFn, [])]⟩
          (Storage.ok (SnapVal.map [])) [("x", Val.int 1)]).1.queriesCache = []
    ∧ (Table.purge ⟨"t", 0, [(CacheKey.whereFn, [])]⟩
          (Storage.ok (SnapVal.map []))).1.queriesCache = []
    ∧ (Table.remove ⟨"t", 0, [(CacheKey.whereFn, [])]⟩
          (Storage.ok (SnapVal.map []))
          (Cond.ceq "a" (Val.int 1))).1.queriesCache = []
    ∧ (Table.search ⟨"u", 0, []⟩ (Storage.ok (SnapVal.map []))
          (Cond.ceq "b" (Val.int 2))).1
        = Except.ok ((Table.all ⟨"u", 0, []⟩
            (Storage.ok (SnapVal.map []))).filter
            (fun e => evalCond (Cond.ceq "b" (Val.int 2)) e))) :=
  ⟨by decide, rfl,
   c5_mutations_clear_query_cache
     ⟨"t", 0, [(CacheKey.whereFn, [])]⟩ ⟨"u", 0, []⟩
     (Storage.ok (SnapVal.map [])) (Storage.ok (SnapVal.map []))
     [("x", Val.int 1)] (Cond.ceq "a" (Val.int 1)) (Cond.ceq "b" (Val.int 2))
     (by decide) rfl⟩

/-- C6: remove writes back the previous document list with exactly those
documents removed that are structurally equal to some document matched by
the condition; a document survives iff it was present and is not
structurally equal to any matched document. -/
theorem c6_remove_by_structural_equality (t : Table) (s : Storage) (c : Cond)
    (m : List (String × List Doc)) (e : Doc)
    (hc : lookupCache t.queriesCache (CacheKey.cond c) = none)
    (ht : t.name ≠ "") (hm : dbReadAll s = SnapVal.map m) :
    Table.remove t s c
      = (⟨t.name, t.lastId, []⟩,
         Except.ok (Storage.ok (SnapVal.map
           (setEntry m t.name (keptDocs s t.name c)))))
    ∧ dbReadTable (Storage.ok (SnapVal.map
        (setEntry m t.name (keptDocs s t.name c)))) t.name
        = keptDocs s t.name c
    ∧ (e ∈ keptDocs s t.name c
        ↔ e ∈ dbReadTable s t.name ∧ e ∉ matchedDocs s t.name c) := by
  refine ⟨remove_eq t s c m hc ht hm, ?_, ?_⟩
  · simp [dbReadTable, dbReadAll, lookupEntry_setEntry_self]
  · simp [keptDocs, List.mem_filter]

/-- C6, instantiated: removing with a condition matching the duplicated
content drops both structurally equal copies. -/
theorem c6_remove_by_structural_equality_witness :
    lookupCache ([] : List (CacheKey × List Doc))
        (CacheKey.cond (Cond.ceq "a" (Val.int 1))) = none
    ∧ (("t" : String) ≠ "")
    ∧ dbReadAll (Storage.ok (SnapVal.map
        [("t", [[("a", Val.int 1), ("_id", Val.int 1)],
                [("b", Val.int 2), ("_id", Val.int 2)],
                [("a", Val.int 1), ("_id", Val.int 1)]])]))
      = SnapVal.map
        [("t", [[("a", Val.int 1), ("_id", Val.int 1)],
                [("b", Val.int 2), ("_id", Val.int 2)],
                [("a", Val.int 1), ("_id", Val.int 1)]])]
    ∧ (Table.remove ⟨"t", 2, []⟩
        (Storage.ok (SnapVal.map
          [("t", [[("a", Val.int 1), ("_id", Val.int 1)],
                  [("b", Val.int 2), ("_id", Val.int 2)],
                  [("a", Val.int 1), ("_id", Val.int 1)]])]))
        (Cond.ceq "a" (Val.int 1))
      = (⟨"t", 2, []⟩,
         Except.ok (Storage.ok (SnapVal.map
           (setEntry
             [("t", [[("a", Val.int 1), ("_id", Val.int 1)],
                     [("b", Val.int 2), ("_id", Val.int 2)],
                     [("a", Val.int 1), ("_id", Val.int 1)]])] "t"
             (keptDocs (Storage.ok (SnapVal.map
               [("t", [[("a", Val.int 1), ("_id", Val.int 1)],
                       [("b", Val.int 2), ("_id", Val.int 2)],
                       [("a", Val.int 1), ("_id", Val.int 1)]])])) "t"
               (Cond.ceq "a" (Val.int 1)))))))
    ∧ dbReadTable (Storage.ok (SnapVal.map
        (setEntry
          [("t", [[("a", Val.int 1), ("_id", Val.int 1)],
                  [("b", Val.int 2), ("_id", Val.int 2)],
                  [("a", Val.int 1), ("_id", Val.int 1)]])] "t"
          (keptDocs (Storage.ok (SnapVal.map
            [("t", [[("a", Val.int 1), ("_id", Val.int 1)],
                    [("b", Val.int 2), ("_id", Val.int 2)],
                    [("a", Val.int 1), ("_id", Val.int 1)]])])) "t"
            (Cond.ceq "a" (Val.int 1)))))) "t"
        = keptDocs (Storage.ok (SnapVal.map
            [("t", [[("a", Val.int 1), ("_id", Val.int 1)],
                    [("b", Val.int 2), ("_id", Val.int 2)],
                    [("a", Val.int 1), ("_id", Val.int 1)]])])) "t"
            (Cond.ceq "a" (Val.int 1))
    ∧ ([("a", Val.int 1), ("_id", Val.int 1)]
        ∈ keptDocs (Storage.ok (SnapVal.map
            [("t", [[("a", Val.int 1), ("_id", Val.int 1)],
                    [("b", Val.int 2), ("_id", Val.int 2)],
                    [("a", Val.int 1), ("_id", Val.int 1)]])])) "t"
            (Cond.ceq "a" (Val.int 1))
        ↔ [("a", Val.int 1), ("_id", Val.int 1)]
            ∈ dbReadTable (Storage.ok (SnapVal.map
                [("t", [[("a", Val.int 1), ("_id", Val.int 1)],
                        [("b", Val.int 2), ("_id", Val.int 2)],
                        [("a", Val.int 1), ("_id", Val.int 1)]])])) "t"
          ∧ [("a", Val.int 1), ("_id", Val.int 1)]
              ∉ matchedDocs (Storage.ok (SnapVal.map
                  [("t", [[("a", Val.int 1), ("_id", Val.int 1)],
                          [("b", Val.int 2), ("_id", Val.int 2)],
                          [("a", Val.int 1), ("_id", Val.int 1)]])])) "t"
                  (Cond.ceq "a" (Val.int 1)))) :=
  ⟨by decide, by decide, rfl,
   c6_remove_by_structural_equality ⟨"t", 2, []⟩
     (Storage.ok (SnapVal.map
       [("t", [[("a", Val.int 1), ("_id", Val.int 1)],
               [("b", Val.int 2), ("_id", Val.int 2)],
               [("a", Val.int 1), ("_id", Val.int 1)]])]))
     (Cond.ceq "a" (Val.int 1))
     [("t", [[("a", Val.int 1), ("_id", Val.int 1)],
             [("b", Val.int 2), ("_id", Val.int 2)],
             [("a", Val.int 1), ("_id", Val.int 1)]])]
     [("a", Val.int 1), ("_id", Val.int 1)]
     (by decide) (by decide) rfl⟩

/-- C7: running any interleaving of inserts and removes on a fresh table
over an empty backend assigns the identifiers 1, 2, ..., k (k the number of
inserts): a strictly increasing, repetition-free sequence starting at 1,
unaffected by interleaved removals. -/
theorem c7_insert_ids_strictly_increasing (ops : List Op) (name : String)
    (h : name ≠ "") :
    Table.init name (Storage.ok (SnapVal.map [])) = Except.ok ⟨name, 0, []⟩
    ∧ (runOps ⟨name, 0, []⟩ (Storage.ok (SnapVal.map [])) ops).2.2
        = rangeInts 1 (countIns ops)
    ∧ List.Pairwise (fun x y => x < y)
        (runOps ⟨name, 0, []⟩ (Storage.ok (SnapVal.map [])) ops).2.2
    ∧ (runOps ⟨name, 0, []⟩ (Storage.ok (SnapVal.map [])) ops).2.2.Nodup
    ∧ (runOps ⟨name, 0, []⟩ (Storage.ok (SnapVal.map [])) ops).2.2.head?
        = (if countIns ops = 0 then none else some 1) := by
  have hids := runOps_ids ops ⟨name, 0, []⟩ (Storage.ok (SnapVal.map []))
    [] h rfl rfl
  have h01 : (0 : Int) + 1 = 1 := by norm_num
  rw [h01] at hids
  refine ⟨rfl, hids, ?_, ?_, ?_⟩
  · rw [hids]; exact rangeInts_pairwise 1 (countIns ops)
  · rw [hids]
    exact (rangeInts_pairwise 1 (countIns ops)).imp (fun hlt => ne_of_lt hlt)
  · rw [hids]
    cases hk : countIns ops with
    | zero => simp [rangeInts_zero]
    | succ k => rw [rangeInts_succ]; simp

/-- C7, instantiated at a concrete interleaving of three inserts and a
remove. -/
theorem c7_insert_ids_strictly_increasing_witness :
    (("t" : String) ≠ "")
    ∧ (Table.init "t" (Storage.ok (SnapVal.map []))
        = Except.ok ⟨"t", 0, []⟩
    ∧ (runOps ⟨"t", 0, []⟩ (Storage.ok (SnapVal.map []))
        [Op.ins [("a", Val.int 1)], Op.rem (Cond.ceq "a" (Val.int 1)),
         Op.ins [("a", Val.int 1)], Op.ins [("b", Val.int 2)]]).2.2
        = rangeInts 1 (countIns
            [Op.ins [("a", Val.int 1)], Op.rem (Cond.ceq "a" (Val.int 1)),
             Op.ins [("a", Val.int 1)], Op.ins [("b", Val.int 2)]])
    ∧ List.Pairwise (fun x y => x < y)
        (runOps ⟨"t", 0, []⟩ (Storage.ok (SnapVal.map []))
          [Op.ins [("a", Val.int 1)], Op.rem (Cond.ceq "a" (Val.int 1)),
           Op.ins [("a", Val.int 1)], Op.ins [("b", Val.int 2)]]).2.2
    ∧ (runOps ⟨"t", 0, []⟩ (Storage.ok (SnapVal.map []))
        [Op.ins [("a", Val.int 1)], Op.rem (Cond.ceq "a" (Val.int 1)),
         Op.ins [("a", Val.int 1)], Op.ins [("b", Val.int 2)]]).2.2.Nodup
    ∧ (runOps ⟨"t", 0, []⟩ (Storage.ok (SnapVal.map []))
        [Op.ins [("a", Val.int 1)], Op.rem (Cond.ceq "a" (Val.int 1)),
         Op.ins [("a", Val.int 1)], Op.ins [("b", Val.int 2)]]).2.2.head?
        = (if countIns
            [Op.ins [("a", Val.int 1)], Op.rem (Cond.ceq "a" (Val.int 1)),
             Op.ins [("a", Val.int 1)], Op.ins [("b", Val.int 2)]] = 0
           then none else some 1)) :=
  ⟨by decide,
   c7_insert_ids_strictly_increasing
     [Op.ins [("a", Val.int 1)], Op.rem (Cond.ceq "a" (Val.int 1)),
      Op.ins [("a", Val.int 1)], Op.ins [("b", Val.int 2)]] "t" (by decide)⟩

/-- C8 counterexample: with the empty string as table name, the read returns
the whole snapshot mapping, not the document list stored under that name. -/
theorem c8_counterexample_empty_name_read :
    dbRead (Storage.ok (SnapVal.map [("", [[("a", Val.int 1)]])])) (some "")
      = ReadResult.whole (SnapVal.map [("", [[("a", Val.int 1)]])])
    ∧ dbRead (Storage.ok (SnapVal.map [("", [[("a", Val.int 1)]])])) (some "")
        ≠ ReadResult.docs [[("a", Val.int 1)]] := by
  refine ⟨rfl, by decide⟩

/-- C8 amended: for every NONEMPTY table name the read returns the document
list of that table, an empty list when the table is absent or the snapshot
is not a mapping, and a full-snapshot read whose decode fails returns the
empty mapping; a read given the empty name instead returns the whole
snapshot. -/
theorem c8_read_missing_or_malformed (s : Storage) (t : String)
    (m : List (String × List Doc)) (l : List Doc) (h : t ≠ "") :
    dbRead s (some t) = ReadResult.docs (dbReadTable s t)
    ∧ dbReadTable (Storage.ok (SnapVal.map m)) t = (lookupEntry m t).getD []
    ∧ dbReadTable (Storage.ok (SnapVal.arr l)) t = []
    ∧ dbReadTable Storage.decodeFail t = []
    ∧ dbRead Storage.decodeFail none = ReadResult.whole (SnapVal.map []) := by
  refine ⟨?_, rfl, rfl, rfl, rfl⟩
  simp [dbRead, h]

/-- C8 amended, instantiated at a nonempty name over a snapshot missing that
table. -/
theorem c8_read_missing_or_malformed_witness :
    (("t" : String) ≠ "")
    ∧ (dbRead (Storage.ok (SnapVal.map [("u", [])])) (some "t")
        = ReadResult.docs (dbReadTable (Storage.ok (SnapVal.map [("u", [])])) "t")
    ∧ dbReadTable (Storage.ok (SnapVal.map [("u", [])])) "t"
        = (lookupEntry [("u", [])] "t").getD []
    ∧ dbReadTable (Storage.ok (SnapVal.arr [[("a", Val.int 1)]])) "t" = []
    ∧ dbReadTable Storage.decodeFail "t" = []
    ∧ dbRead Storage.decodeFail none = ReadResult.whole (SnapVal.map [])) :=
  ⟨by decide,
   c8_read_missing_or_malformed (Storage.ok (SnapVal.map [("u", [])])) "t"
     [("u", [])] [[("a", Val.int 1)]] (by decide)⟩

/-- C9 counterexample: a write under the empty table name replaces the whole
snapshot with the bare document list, so the entry of the other table name
is destroyed instead of preserved. -/
theorem c9_counterexample_empty_name_write :
    dbWrite (Storage.ok (SnapVal.map [("a", [[("k", Val.int 1)]])])) [] ""
      = Except.ok (Storage.ok (SnapVal.arr []))
    ∧ dbReadTable (Storage.ok (SnapVal.arr [])) "a" = []
    ∧ ([] : List Doc) ≠ [[("k", Val.int 1)]] := by
  refine ⟨rfl, rfl, by decide⟩

/-- C9 amended: for every NONEMPTY table name t, the per-table write is a
read-modify-write of the whole snapshot: afterwards the snapshot maps t to
the written list and every other name to what the snapshot read at the start
of the operation held. -/
theorem c9_write_is_read_modify_write (s : Storage)
    (m : List (String × List Doc)) (t u : String) (v : List Doc)
    (ht : t ≠ "") (hm : dbReadAll s = SnapVal.map m) (hu : u ≠ t) :
    dbWrite s v t = Except.ok (Storage.ok (SnapVal.map (setEntry m t v)))
    ∧ lookupEntry (setEntry m t v) t = some v
    ∧ lookupEntry (setEntry m t v) u = lookupEntry m u :=
  ⟨dbWrite_map s m v t ht hm, lookupEntry_setEntry_self m t v,
   lookupEntry_setEntry_other m t u v hu⟩

/-- C9 amended, instantiated: writing table t leaves the entry of table u
untouched. -/
theorem c9_write_is_read_modify_write_witness :
    (("t" : String) ≠ "")
    ∧ dbReadAll (Storage.ok (SnapVal.map [("u", [[("k", Val.int 1)]])]))
        = SnapVal.map [("u", [[("k", Val.int 1)]])]
    ∧ (("u" : String) ≠ "t")
    ∧ (dbWrite (Storage.ok (SnapVal.map [("u", [[("k", Val.int 1)]])]))
        [[("x", Val.int 2)]] "t"
        = Except.ok (Storage.ok (SnapVal.map
            (setEntry [("u", [[("k", Val.int 1)]])] "t" [[("x", Val.int 2)]])))
    ∧ lookupEntry (setEntry [("u", [[("k", Val.int 1)]])] "t"
        [[("x", Val.int 2)]]) "t" = some [[("x", Val.int 2)]]
    ∧ lookupEntry (setEntry [("u", [[("k", Val.int 1)]])] "t"
        [[("x", Val.int 2)]]) "u"
        = lookupEntry [("u", [[("k", Val.int 1)]])] "u") :=
  ⟨by decide, rfl, by decide,
   c9_write_is_read_modify_write
     (Storage.ok (SnapVal.map [("u", [[("k", Val.int 1)]])]))
     [("u", [[("k", Val.int 1)]])] "t" "u" [[("x", Val.int 2)]]
     (by decide) rfl (by decide)⟩

/-- C10: insert stamps the very document object passed by the caller — after
the call the heap cell the caller references holds the document with the
reserved field set to the newly assigned identifier (no copy is allocated:
the heap keeps its length), and that same stamped value is what gets
appended and persisted. -/
theorem c10_insert_mutates_caller_document (t : Table) (s : Storage)
    (heap : List Doc) (r : Nat) (d : Doc) (m : List (String × List Doc))
    (hr : heap[r]? = some d) (ht : t.name ≠ "")
    (hm : dbReadAll s = SnapVal.map m) :
    (Table.insertRef t s heap r).2.2[r]?
      = some (setField d "_id" (Val.int (t.lastId + 1)))
    ∧ (Table.insertRef t s heap r).2.2.length = heap.length
    ∧ (Table.insertRef t s heap r).2.1
      = Except.ok (Storage.ok (SnapVal.map (setEntry m t.name
          (dbReadTable s t.name ++
           [setField d "_id" (Val.int (t.lastId + 1))]))))
    ∧ getField (setField d "_id" (Val.int (t.lastId + 1))) "_id"
      = some (Val.int (t.lastId + 1)) := by
  have hlt : r < heap.length := by
    by_contra hge
    rw [List.getElem?_eq_none (by omega)] at hr
    exact Option.noConfusion hr
  have hgetD : heap.getD r [] = d := by simp [List.getD, hr]
  refine ⟨?_, ?_, ?_, getField_setField d "_id" _⟩
  · show (heap.set r (setField (heap.getD r []) "_id"
        (Val.int (t.lastId + 1))))[r]? = _
    rw [List.getElem?_set_self (by omega), hgetD]
  · show (heap.set r _).length = heap.length
    simp
  · show dbWrite s (dbReadTable s t.name ++
        [(heap.set r (setField (heap.getD r []) "_id"
          (Val.int (t.lastId + 1)))).getD r []]) t.name = _
    rw [show (heap.set r (setField (heap.getD r []) "_id"
          (Val.int (t.lastId + 1)))).getD r []
        = setField d "_id" (Val.int (t.lastId + 1)) by
      simp [List.getD, List.getElem?_set_self (show r < heap.length by omega), hgetD, hr]]
    exact dbWrite_map s m _ t.name ht hm

/-- C10, instantiated: the heap cell of the caller after insert holds the
stamped document. -/
theorem c10_insert_mutates_caller_document_witness :
    ([[("x", Val.int 9)]] : List Doc)[0]? = some [("x", Val.int 9)]
    ∧ (("t" : String) ≠ "")
    ∧ dbReadAll (Storage.ok (SnapVal.map [])) = SnapVal.map []
    ∧ ((Table.insertRef ⟨"t", 0, []⟩ (Storage.ok (SnapVal.map []))
          [[("x", Val.int 9)]] 0).2.2[0]?
        = some (setField [("x", Val.int 9)] "_id" (Val.int (0 + 1)))
    ∧ (Table.insertRef ⟨"t", 0, []⟩ (Storage.ok (SnapVal.map []))
          [[("x", Val.int 9)]] 0).2.2.length
        = ([[("x", Val.int 9)]] : List Doc).length
    ∧ (Table.insertRef ⟨"t", 0, []⟩ (Storage.ok (SnapVal.map []))
          [[("x", Val.int 9)]] 0).2.1
        = Except.ok (Storage.ok (SnapVal.map (setEntry [] "t"
            (dbReadTable (Storage.ok (SnapVal.map [])) "t" ++
             [setField [("x", Val.int 9)] "_id" (Val.int (0 + 1))]))))
    ∧ getField (setField [("x", Val.int 9)] "_id" (Val.int (0 + 1))) "_id"
        = some (Val.int (0 + 1))) :=
  ⟨by decide, by decide, rfl,
   c10_insert_mutates_caller_document ⟨"t", 0, []⟩
     (Storage.ok (SnapVal.map [])) [[("x", Val.int 9)]] 0
     [("x", Val.int 9)] [] (by decide) (by decide) rfl⟩
